import Mathlib

/-!
Verification of the tenant-registry command layer of a Telegram
message-forwarding bot (`telegram_forward_bot.py`).

The bot keeps a module-level dictionary `tenants` mapping a tenant name to
a record `{"sources": [...], "destinations": [...]}` of chat identifiers.
Three command handlers mutate it:

  * `create_tenant` — owner-gated; `tenants[name] = {"sources": [], "destinations": []}`
  * `add_source` — no owner gate; appends the invoking chat id to `sources`
  * `add_destination` — truncated in the source; the spec states it is
    symmetric to `add_source`, appending to `destinations`

Each handler is embedded as a pure function from the invoking user's id,
the invoking chat's id, the command arguments and the registry state to
the new registry state paired with the single reply text the handler sends.
The Python dictionary is embedded as an association list with first-match
lookup and replace-in-place-or-append assignment, which coincides with
dictionary semantics on the duplicate-free lists the handlers produce and
is stated purely through `lookupT` so the theorems do not depend on entry
order bookkeeping.
-/

/-- A tenant record: the value stored in the `tenants` dictionary,
`{"sources": [...], "destinations": [...]}`. Chat ids are integers. -/
structure Tenant where
  sources : List Int
  destinations : List Int
deriving DecidableEq, Repr

/-- The `tenants` dictionary: an association list from tenant name to record. -/
abbrev Registry := List (String × Tenant)

/-- Dictionary read: first entry whose key matches. -/
def lookupT : Registry → String → Option Tenant
  | [], _ => none
  | (k, v) :: rest, n => if k = n then some v else lookupT rest n

/-- Dictionary assignment `tenants[k] = v`: replace the value at the first
occurrence of `k`, or append a fresh entry when `k` is absent. -/
def setKey : Registry → String → Tenant → Registry
  | [], k, v => [(k, v)]
  | (k0, v0) :: rest, k, v =>
      if k0 = k then (k0, v) :: rest else (k0, v0) :: setKey rest k v

/-- In-place mutation of the record stored at `k`
(`tenants[k]["sources"].append(...)` and its destination analogue):
apply `f` to the value at the first occurrence of `k`. -/
def updateKey : Registry → String → (Tenant → Tenant) → Registry
  | [], _, _ => []
  | (k0, v0) :: rest, k, f =>
      if k0 = k then (k0, f v0) :: rest else (k0, v0) :: updateKey rest k f

/-- Reply of `create_tenant` to a non-owner. -/
def permissionDeniedMsg : String := "شما اجازه‌ی این کار را ندارید ❌"

/-- Usage reply of `create_tenant` when no argument is given. -/
def createTenantUsageMsg : String := "مثال: /create_tenant ali"

/-- Success reply of `create_tenant`. -/
def tenantCreatedMsg (tenant_name : String) : String :=
  "مستأجر \x27" ++ tenant_name ++ "\x27 ساخته شد ✅"

/-- Usage reply of `add_source` when no argument is given. -/
def addSourceUsageMsg : String := "مثال: /add_source ali"

/-- Success reply of `add_source`. -/
def sourceAddedMsg (tenant_name : String) : String :=
  "✅ منبع به \x27" ++ tenant_name ++ "\x27 اضافه شد."

/-- Reply of `add_source` when the tenant does not exist. -/
def tenantNotFoundMsg : String := "❌ همچین مستأجری وجود ندارد."

/-- Usage reply of `add_destination` when no argument is given. -/
def addDestinationUsageMsg : String := "مثال: /add_destination ali"

/-- Modelled from the spec: the success reply of `add_destination` is cut
off in the source; only its text is unknown, and no claim depends on it. -/
def destinationAddedMsg (tenant_name : String) : String :=
  "✅ " ++ tenant_name

/-- Handler `create_tenant(update, context)`.

`ownerId` embeds the configured constant `OWNER_USER_ID` (a placeholder in
the source), `userId` is `update.effective_user.id`, and `args` is
`context.args`.  The handler first rejects a non-owner, then rejects
`len(context.args) < 1` (i.e. `args = []`), and otherwise assigns a fresh
record with empty lists to `args[0]`. -/
def create_tenant (ownerId userId : Int) (args : List String) (reg : Registry) :
    Registry × String :=
  if userId ≠ ownerId then (reg, permissionDeniedMsg)
  else
    match args with
    | [] => (reg, createTenantUsageMsg)
    | tenant_name :: _ =>
        (setKey reg tenant_name ⟨[], []⟩, tenantCreatedMsg tenant_name)

/-- Handler `add_source(update, context)`.

`userId` is `update.effective_user.id` — received with the update but never
read by the handler — and `chatId` is `update.effective_chat.id`.  The
handler rejects empty `context.args`, then appends `chatId` to the sources
of `args[0]` when that tenant exists and reports not-found otherwise. -/
def add_source (userId chatId : Int) (args : List String) (reg : Registry) :
    Registry × String :=
  match args with
  | [] => (reg, addSourceUsageMsg)
  | tenant_name :: _ =>
      match lookupT reg tenant_name with
      | some _ =>
          (updateKey reg tenant_name
            (fun t => ⟨t.sources ++ [chatId], t.destinations⟩),
           sourceAddedMsg tenant_name)
      | none => (reg, tenantNotFoundMsg)

/-- Modelled from the spec: the body of `add_destination` is truncated in
the source after the argument check and the read of the chat id; the spec
(§4.1, §6) states it is symmetric to `add_source`, appending the invoking
chat's id to the tenant's destinations after the same exists check. -/
def add_destination (userId chatId : Int) (args : List String) (reg : Registry) :
    Registry × String :=
  match args with
  | [] => (reg, addDestinationUsageMsg)
  | tenant_name :: _ =>
      match lookupT reg tenant_name with
      | some _ =>
          (updateKey reg tenant_name
            (fun t => ⟨t.sources, t.destinations ++ [chatId]⟩),
           destinationAddedMsg tenant_name)
      | none => (reg, tenantNotFoundMsg)

/-! ### Dictionary lemmas -/

theorem lookupT_setKey (reg : Registry) (k : String) (v : Tenant) (n : String) :
    lookupT (setKey reg k v) n = if k = n then some v else lookupT reg n := by
  induction reg with
  | nil => simp [setKey, lookupT]
  | cons hd rest ih =>
      obtain ⟨k0, v0⟩ := hd
      by_cases hk : k0 = k
      · subst hk
        by_cases hn : k0 = n <;> simp [setKey, lookupT, hn]
      · by_cases hn : k0 = n
        · subst hn
          have : ¬ k = k0 := fun h => hk h.symm
          simp [setKey, lookupT, hk, this]
        · simp [setKey, lookupT, hk, hn, ih]

theorem lookupT_updateKey (reg : Registry) (k : String) (f : Tenant → Tenant)
    (n : String) :
    lookupT (updateKey reg k f) n =
      if k = n then Option.map f (lookupT reg k) else lookupT reg n := by
  induction reg with
  | nil => simp [updateKey, lookupT]
  | cons hd rest ih =>
      obtain ⟨k0, v0⟩ := hd
      by_cases hk : k0 = k
      · subst hk
        by_cases hn : k0 = n <;> simp [updateKey, lookupT, hn]
      · by_cases hn : k0 = n
        · subst hn
          have : ¬ k = k0 := fun h => hk h.symm
          simp [updateKey, lookupT, hk, this]
        · simp [updateKey, lookupT, hk, hn, ih]

/-! ### Command traces

A `Cmd` is one incoming command update: the invoking user's id, the
invoking chat's id, and the parsed arguments.  `runCmds` folds a sequence
of updates through the handlers, starting from a given registry state. -/

/-- One command update dispatched to a handler. -/
inductive Cmd where
  | createT (userId chatId : Int) (args : List String)
  | addSrc (userId chatId : Int) (args : List String)
  | addDst (userId chatId : Int) (args : List String)
deriving DecidableEq, Repr

/-- Dispatch one update to its handler and keep the registry it leaves. -/
def stepCmd (ownerId : Int) (reg : Registry) : Cmd → Registry
  | .createT u _ args => (create_tenant ownerId u args reg).1
  | .addSrc u c args => (add_source u c args reg).1
  | .addDst u c args => (add_destination u c args reg).1

/-- Run a sequence of updates from a starting registry state. -/
def runCmds (ownerId : Int) (cmds : List Cmd) (reg : Registry) : Registry :=
  cmds.foldl (stepCmd ownerId) reg

/-- Whether a command is a successful creation of tenant `n`: a
`create_tenant` update sent by the owner whose first argument is `n`. -/
def createsTenant (ownerId : Int) (n : String) : Cmd → Bool
  | .createT u _ args => u == ownerId && args.head? == some n
  | _ => false

/-- A single handler dispatch puts tenant `n` into the registry only if the
command creates `n` or `n` was already present. -/
theorem stepCmd_mem (ownerId : Int) (reg : Registry) (cmd : Cmd) (n : String)
    (h : lookupT (stepCmd ownerId reg cmd) n ≠ none) :
    createsTenant ownerId n cmd = true ∨ lookupT reg n ≠ none := by
  cases cmd with
  | createT u c args =>
      by_cases hu : u = ownerId
      · cases args with
        | nil =>
            exact Or.inr (by simpa [stepCmd, create_tenant, hu] using h)
        | cons name rest =>
            rw [show stepCmd ownerId reg (.createT u c (name :: rest)) =
                  setKey reg name ⟨[], []⟩ by simp [stepCmd, create_tenant, hu]] at h
            rw [lookupT_setKey] at h
            by_cases hn : name = n
            · exact Or.inl (by simp [createsTenant, hu, hn])
            · exact Or.inr (by simpa [hn] using h)
      · exact Or.inr (by simpa [stepCmd, create_tenant, hu] using h)
  | addSrc u c args =>
      right
      cases args with
      | nil => simpa [stepCmd, add_source] using h
      | cons name rest =>
          cases hl : lookupT reg name with
          | none => simpa [stepCmd, add_source, hl] using h
          | some t =>
              rw [show stepCmd ownerId reg (.addSrc u c (name :: rest)) =
                    updateKey reg name
                      (fun t => ⟨t.sources ++ [c], t.destinations⟩) by
                  simp [stepCmd, add_source, hl]] at h
              rw [lookupT_updateKey] at h
              by_cases hn : name = n
              · subst hn; simp [hl]
              · simpa [hn] using h
  | addDst u c args =>
      right
      cases args with
      | nil => simpa [stepCmd, add_destination] using h
      | cons name rest =>
          cases hl : lookupT reg name with
          | none => simpa [stepCmd, add_destination, hl] using h
          | some t =>
              rw [show stepCmd ownerId reg (.addDst u c (name :: rest)) =
                    updateKey reg name
                      (fun t => ⟨t.sources, t.destinations ++ [c]⟩) by
                  simp [stepCmd, add_destination, hl]] at h
              rw [lookupT_updateKey] at h
              by_cases hn : name = n
              · subst hn; simp [hl]
              · simpa [hn] using h

/-- A tenant present after a run of updates was either created during the
run or already present at the start. -/
theorem runCmds_created_aux (ownerId : Int) (cmds : List Cmd) :
    ∀ (reg : Registry) (n : String),
      lookupT (runCmds ownerId cmds reg) n ≠ none →
      (∃ cmd ∈ cmds, createsTenant ownerId n cmd = true) ∨ lookupT reg n ≠ none := by
  induction cmds with
  | nil =>
      intro reg n h
      exact Or.inr (by simpa [runCmds] using h)
  | cons c cs ih =>
      intro reg n h
      have h2 : lookupT (runCmds ownerId cs (stepCmd ownerId reg c)) n ≠ none := by
        simpa [runCmds] using h
      rcases ih (stepCmd ownerId reg c) n h2 with hcs | hstep
      · obtain ⟨cmd, hmem, hc⟩ := hcs
        exact Or.inl ⟨cmd, List.mem_cons_of_mem _ hmem, hc⟩
      · rcases stepCmd_mem ownerId reg c n hstep with hc | hreg
        · exact Or.inl ⟨c, List.mem_cons_self _ _, hc⟩
        · exact Or.inr hreg

/-! ### Claims -/

/-- C1: for every tenant name `n` not previously present in the registry,
the owner invoking `create_tenant` with first argument `n` makes the
registry map `n` to a record with empty sources and empty destinations,
and the success reply is sent. -/
theorem create_tenant_fresh_record (ownerId : Int) (n : String)
    (rest : List String) (reg : Registry) (h : lookupT reg n = none) :
    lookupT (create_tenant ownerId ownerId (n :: rest) reg).1 n =
      some ⟨[], []⟩ ∧
    (create_tenant ownerId ownerId (n :: rest) reg).2 = tenantCreatedMsg n := by
  simp [create_tenant, lookupT_setKey]

theorem create_tenant_fresh_record_witness :
    lookupT [] "ali" = none ∧
    (lookupT (create_tenant 7 7 ["ali"] []).1 "ali" = some ⟨[], []⟩ ∧
     (create_tenant 7 7 ["ali"] []).2 = tenantCreatedMsg "ali") :=
  ⟨by decide, create_tenant_fresh_record 7 "ali" [] [] (by decide)⟩

/-- C2: for every tenant name `n` absent from the registry, `add_source`
invoked with argument `n` from any chat returns the registry unchanged
together with the tenant-not-found reply, whose text contains
"وجود ندارد". -/
theorem add_source_tenant_not_found (u c : Int) (n : String)
    (rest : List String) (reg : Registry) (h : lookupT reg n = none) :
    add_source u c (n :: rest) reg = (reg, tenantNotFoundMsg) ∧
    ∃ pre post : String, tenantNotFoundMsg = pre ++ "وجود ندارد" ++ post :=
  ⟨by simp [add_source, h], "❌ همچین مستأجری ", ".", rfl⟩

theorem add_source_tenant_not_found_witness :
    lookupT [("bob", ⟨[1], [2]⟩)] "ghost" = none ∧
    (add_source 9 555 ["ghost"] [("bob", ⟨[1], [2]⟩)] =
       ([("bob", ⟨[1], [2]⟩)], tenantNotFoundMsg) ∧
     ∃ pre post : String, tenantNotFoundMsg = pre ++ "وجود ندارد" ++ post) :=
  ⟨by decide, add_source_tenant_not_found 9 555 "ghost" [] _ (by decide)⟩

/-- C3: for every tenant name `n` present in the registry with record `t`,
`add_source` invoked with argument `n` from chat `c` leaves `n` mapped to
`t` with `c` appended at the end of its sources and its destinations
unchanged, while every other tenant name `m` keeps its previous record. -/
theorem add_source_appends_and_frames (u c : Int) (n m : String)
    (rest : List String) (reg : Registry) (t : Tenant)
    (h : lookupT reg n = some t) (hm : m ≠ n) :
    lookupT (add_source u c (n :: rest) reg).1 n =
      some ⟨t.sources ++ [c], t.destinations⟩ ∧
    lookupT (add_source u c (n :: rest) reg).1 m = lookupT reg m := by
  have hnm : ¬ n = m := fun e => hm e.symm
  simp [add_source, h, lookupT_updateKey, hnm]

theorem add_source_appends_and_frames_witness :
    lookupT [("ali", ⟨[1], [2]⟩), ("bob", ⟨[3], [4]⟩)] "ali" =
      some ⟨[1], [2]⟩ ∧
    ("bob" : String) ≠ "ali" ∧
    (lookupT (add_source 9 555 ["ali"]
        [("ali", ⟨[1], [2]⟩), ("bob", ⟨[3], [4]⟩)]).1 "ali" =
      some ⟨[1, 555], [2]⟩ ∧
     lookupT (add_source 9 555 ["ali"]
        [("ali", ⟨[1], [2]⟩), ("bob", ⟨[3], [4]⟩)]).1 "bob" =
      lookupT [("ali", ⟨[1], [2]⟩), ("bob", ⟨[3], [4]⟩)] "bob") :=
  ⟨by decide, by decide,
   add_source_appends_and_frames 9 555 "ali" "bob" [] _ ⟨[1], [2]⟩
     (by decide) (by decide)⟩

/-- C4: every invocation of `create_tenant` by a user whose id differs
from the configured owner id returns the registry unchanged together with
the permission-denied reply. -/
theorem create_tenant_permission_denied (ownerId userId : Int)
    (args : List String) (reg : Registry) (h : userId ≠ ownerId) :
    create_tenant ownerId userId args reg = (reg, permissionDeniedMsg) := by
  simp [create_tenant, h]

theorem create_tenant_permission_denied_witness :
    (8 : Int) ≠ 7 ∧
    create_tenant 7 8 ["ali"] [("bob", ⟨[1], [2]⟩)] =
      ([("bob", ⟨[1], [2]⟩)], permissionDeniedMsg) :=
  ⟨by decide, create_tenant_permission_denied 7 8 ["ali"] _ (by decide)⟩

/-- C5: `add_source` performs no owner check — it never reads the invoking
user's id.  For every invoking user id, a `/add_source n` update from chat
555 with tenant `n` present and having empty sources leaves
`n`'s sources equal to `[555]`: the appended id is the invoking chat's id,
taken from the update, not from the command arguments. -/
theorem add_source_ignores_user (userId : Int) (n : String) (reg : Registry)
    (d : List Int) (h : lookupT reg n = some ⟨[], d⟩) :
    lookupT (add_source userId 555 [n] reg).1 n = some ⟨[555], d⟩ := by
  simp [add_source, h, lookupT_updateKey]

theorem add_source_ignores_user_witness :
    lookupT [("ali", ⟨[], [7]⟩)] "ali" = some ⟨[], [7]⟩ ∧
    lookupT (add_source 424242 555 ["ali"] [("ali", ⟨[], [7]⟩)]).1 "ali" =
      some ⟨[555], [7]⟩ :=
  ⟨by decide, add_source_ignores_user 424242 "ali" _ [7] (by decide)⟩

/-- C6: for every tenant name `n` already present in the registry with
some record `t`, the owner invoking `create_tenant` with argument `n`
replaces `n`'s record by a fresh one with empty sources and empty
destinations, discarding whatever `t` had accumulated. -/
theorem create_tenant_overwrites (ownerId : Int) (n : String)
    (rest : List String) (reg : Registry) (t : Tenant)
    (h : lookupT reg n = some t) :
    lookupT (create_tenant ownerId ownerId (n :: rest) reg).1 n =
      some ⟨[], []⟩ := by
  simp [create_tenant, lookupT_setKey]

theorem create_tenant_overwrites_witness :
    lookupT [("ali", ⟨[1, 2], [3]⟩)] "ali" = some ⟨[1, 2], [3]⟩ ∧
    lookupT (create_tenant 7 7 ["ali"] [("ali", ⟨[1, 2], [3]⟩)]).1 "ali" =
      some ⟨[], []⟩ :=
  ⟨by decide, create_tenant_overwrites 7 "ali" [] _ ⟨[1, 2], [3]⟩ (by decide)⟩

/-- C7: in every registry state reachable from the empty registry by a
sequence of `create_tenant`, `add_source` and `add_destination` updates,
every tenant present — in particular every tenant with a non-empty sources
or destinations list — was first created by an owner-sent `create_tenant`
update naming it: `add_source` and `add_destination` mutate the registry
only for an already-existing tenant, rejecting the request otherwise. -/
theorem tenant_exists_only_if_created (ownerId : Int) (cmds : List Cmd)
    (n : String) (t : Tenant)
    (h : lookupT (runCmds ownerId cmds []) n = some t) :
    ∃ cmd ∈ cmds, createsTenant ownerId n cmd = true := by
  have h1 : lookupT (runCmds ownerId cmds []) n ≠ none := by simp [h]
  rcases runCmds_created_aux ownerId cmds [] n h1 with h2 | h2
  · exact h2
  · simp [lookupT] at h2

theorem tenant_exists_only_if_created_witness :
    lookupT (runCmds 7 [Cmd.createT 7 10 ["ali"], Cmd.addSrc 9 555 ["ali"]] [])
        "ali" = some ⟨[555], []⟩ ∧
    ∃ cmd ∈ [Cmd.createT 7 10 ["ali"], Cmd.addSrc 9 555 ["ali"]],
      createsTenant 7 "ali" cmd = true :=
  ⟨by decide,
   tenant_exists_only_if_created 7
     [Cmd.createT 7 10 ["ali"], Cmd.addSrc 9 555 ["ali"]] "ali" ⟨[555], []⟩
     (by decide)⟩

/-- C8: invoked with zero arguments, `create_tenant` (by the owner) and
`add_source` (by any user) both leave the registry unchanged and reply
with their usage-example message. -/
theorem zero_args_usage_reply (ownerId userId chatId : Int) (reg : Registry) :
    create_tenant ownerId ownerId [] reg = (reg, createTenantUsageMsg) ∧
    add_source userId chatId [] reg = (reg, addSourceUsageMsg) := by
  constructor <;> simp [create_tenant, add_source]

/-- C9: `add_source` is not idempotent in the chat id — invoking it twice
from the same chat `c` for an existing tenant `n` appends `c` twice, so
`n`'s sources hold `c` at least twice. -/
theorem add_source_duplicates (u c : Int) (n : String) (reg : Registry)
    (t : Tenant) (h : lookupT reg n = some t) :
    lookupT (add_source u c [n] (add_source u c [n] reg).1).1 n =
      some ⟨t.sources ++ [c, c], t.destinations⟩ ∧
    2 ≤ List.count c (t.sources ++ [c, c]) := by
  constructor
  · have h2 : lookupT (add_source u c [n] reg).1 n =
        some ⟨t.sources ++ [c], t.destinations⟩ := by
      simp [add_source, h, lookupT_updateKey]
    generalize (add_source u c [n] reg).1 = reg1 at h2
    simp [add_source, h2, lookupT_updateKey]
  · simp [List.count_append]

theorem add_source_duplicates_witness :
    lookupT [("ali", ⟨[], []⟩)] "ali" = some ⟨[], []⟩ ∧
    (lookupT (add_source 9 5 ["ali"]
        (add_source 9 5 ["ali"] [("ali", ⟨[], []⟩)]).1).1 "ali" =
      some ⟨[5, 5], []⟩ ∧
     2 ≤ List.count (5 : Int) [5, 5]) :=
  ⟨by decide, add_source_duplicates 9 5 "ali" _ ⟨[], []⟩ (by decide)⟩

/-- C10: in `create_tenant` the owner check precedes the argument-count
check — a non-owner invoking it with zero arguments gets the
permission-denied reply (which differs from the usage message) and the
registry is unchanged. -/
theorem owner_check_precedes_args_check (ownerId userId : Int)
    (reg : Registry) (h : userId ≠ ownerId) :
    create_tenant ownerId userId [] reg = (reg, permissionDeniedMsg) ∧
    permissionDeniedMsg ≠ createTenantUsageMsg :=
  ⟨by simp [create_tenant, h], by decide⟩

theorem owner_check_precedes_args_check_witness :
    (8 : Int) ≠ 7 ∧
    (create_tenant 7 8 [] [("ali", ⟨[1], []⟩)] =
       ([("ali", ⟨[1], []⟩)], permissionDeniedMsg) ∧
     permissionDeniedMsg ≠ createTenantUsageMsg) :=
  ⟨by decide, owner_check_precedes_args_check 7 8 _ (by decide)⟩
